import Mathlib

/-!
Verification of the native handle-validation registry and streaming-client
wrapper of databento-dotnet (src/Databento.Native). Each definition is a
shallow embedding of the corresponding C++ function; theorems settle the
frozen claims about the specification.
-/

namespace DatabentoNative

/-! ## Handle validation (handle_validation.hpp) -/

/-- Magic number identifying valid handles (`HANDLE_MAGIC = 0xDA7ABE70`). -/
def HANDLE_MAGIC : Nat := 0xDA7ABE70

/-- Tombstone written into the magic field by `DestroyValidatedHandle` (`0xDEADDEAD`). -/
def TOMBSTONE_MAGIC : Nat := 0xDEADDEAD

/-- Handle types for type safety (`enum class HandleType`). -/
inductive HandleType : Type
  | LiveClient
  | HistoricalClient
  | TsSymbolMap
  | PitSymbolMap
  | DbnFileReader
  | DbnFileWriter
  | Metadata
  | SymbologyResolution
  | UnitPrices
  | BatchJob
  | LiveBlocking
deriving DecidableEq, Repr

/-- Handle header prepended to each wrapper object (`struct HandleHeader`).
Addresses are modelled as `Nat`, with `0` playing the role of the null pointer. -/
structure HandleHeader where
  magic : Nat
  type : HandleType
  wrapper_ptr : Nat
deriving DecidableEq, Repr

/-- Validation error codes (`enum class ValidationError`). -/
inductive ValidationError : Type
  | Success
  | NullHandle
  | InvalidMagic
  | NotRegistered
  | WrongType
  | NullWrapperPtr
deriving DecidableEq, Repr

/-- Embedding of `GetValidationErrorMessage`: error message for each validation error. -/
def GetValidationErrorMessage : ValidationError → String
  | .Success => "Success"
  | .NullHandle => "Handle is NULL"
  | .InvalidMagic => "Invalid handle magic number (corrupted or invalid handle)"
  | .NotRegistered => "Handle not registered (possibly freed or never created)"
  | .WrongType => "Handle type mismatch (wrong wrapper type)"
  | .NullWrapperPtr => "Wrapper pointer is NULL"

/-- State of the process-wide handle registry (`class HandleRegistry`) together
with the memory holding the handle headers. `registry` is the set of
currently-registered header addresses; `headers` is the content of memory at
each address (reads of a freed cell see the residual last-written value);
`headerAlloc` tracks which header cells are live allocations; `nextAddr` is the
allocator's next fresh (nonzero) address. -/
structure RegistryState where
  registry : List Nat
  headers : Nat → HandleHeader
  headerAlloc : Nat → Bool
  nextAddr : Nat

/-- Pointwise update of a header heap. -/
def setHeader (f : Nat → HandleHeader) (a : Nat) (h : HandleHeader) : Nat → HandleHeader :=
  fun x => if x = a then h else f x

/-- Pointwise update of an allocation map. -/
def setFlag (f : Nat → Bool) (a : Nat) (b : Bool) : Nat → Bool :=
  fun x => if x = a then b else f x

/-- Embedding of `ValidateAndCast<WrapperType>(handle, expected_type, error_out)`:
five checks in order, short-circuiting on the first failure; returns the
wrapper pointer on success, together with the error code written to
`error_out`. -/
def ValidateAndCast (s : RegistryState) (handle : Nat) (expected_type : HandleType) :
    Option Nat × ValidationError :=
  if handle = 0 then (none, .NullHandle)
  else if (s.headers handle).magic ≠ HANDLE_MAGIC then (none, .InvalidMagic)
  else if handle ∉ s.registry then (none, .NotRegistered)
  else if (s.headers handle).type ≠ expected_type then (none, .WrongType)
  else if (s.headers handle).wrapper_ptr = 0 then (none, .NullWrapperPtr)
  else (some (s.headers handle).wrapper_ptr, .Success)

/-- Embedding of `CreateValidatedHandle(type, wrapper_ptr)`: returns null (0) if
`wrapper_ptr` is null; otherwise allocates a header, registers its address and
returns it as the opaque handle. -/
def CreateValidatedHandle (s : RegistryState) (t : HandleType) (wrapper_ptr : Nat) :
    RegistryState × Nat :=
  if wrapper_ptr = 0 then (s, 0)
  else
    let addr := s.nextAddr
    ({ registry := addr :: s.registry
       headers := setHeader s.headers addr ⟨HANDLE_MAGIC, t, wrapper_ptr⟩
       headerAlloc := setFlag s.headerAlloc addr true
       nextAddr := s.nextAddr + 1 }, addr)

/-- Embedding of `DestroyValidatedHandle(handle)`: no-op on null; otherwise unregisters the
address, overwrites the magic with the tombstone, and frees the header. -/
def DestroyValidatedHandle (s : RegistryState) (handle : Nat) : RegistryState :=
  if handle = 0 then s
  else
    { registry := s.registry.erase handle
      headers := setHeader s.headers handle
        { s.headers handle with magic := TOMBSTONE_MAGIC }
      headerAlloc := setFlag s.headerAlloc handle false
      nextAddr := s.nextAddr }

/-! ## Wrapper objects and whole-system state
(live_client_wrapper.cpp / live_blocking_wrapper.cpp) -/

/-- Embedding of `struct LiveClientWrapper` (push-mode threaded client). Callback function
pointers are modelled by whether they are set; `client` records whether the
underlying `db::LiveThreaded` has been constructed. The callback mutex and the
`std::once_flag` are synchronisation devices, not data, and are reflected in
the event traces of the operations instead. -/
structure LiveClientWrapper where
  client : Bool
  record_callback : Bool
  metadata_callback : Bool
  error_callback : Bool
  user_data : Nat
  is_running : Bool
  dataset : String
  api_key : String
  send_ts_out : Bool
  upgrade_policy : Nat
  heartbeat_interval_secs : Int
deriving DecidableEq, Repr

/-- Default-constructed `LiveClientWrapper(key)`. -/
def newLiveClientWrapper (key : String) : LiveClientWrapper :=
  { client := false
    record_callback := false
    metadata_callback := false
    error_callback := false
    user_data := 0
    is_running := false
    dataset := ""
    api_key := key
    send_ts_out := false
    upgrade_policy := 1
    heartbeat_interval_secs := 30 }

/-- Embedding of `struct LiveBlockingWrapper` (pull-mode client). -/
structure LiveBlockingWrapper where
  client : Bool
  dataset : String
  api_key : String
  send_ts_out : Bool
  upgrade_policy : Nat
  heartbeat_interval_secs : Int
deriving DecidableEq, Repr

/-- Pointwise update of the live-wrapper heap. -/
def setLiveW (f : Nat → LiveClientWrapper) (a : Nat) (w : LiveClientWrapper) :
    Nat → LiveClientWrapper :=
  fun x => if x = a then w else f x

/-- Pointwise update of the blocking-wrapper heap. -/
def setBlockingW (f : Nat → LiveBlockingWrapper) (a : Nat) (w : LiveBlockingWrapper) :
    Nat → LiveBlockingWrapper :=
  fun x => if x = a then w else f x

/-- Whole-system state: the handle registry plus the heaps of wrapper objects.
`wAlloc`/`bAlloc` track which wrapper allocations are currently live, so that
frees and double-frees are observable; `nextW` is the wrapper allocator's next
fresh (nonzero) address. -/
structure SysState where
  reg : RegistryState
  wrappers : Nat → LiveClientWrapper
  wAlloc : Nat → Bool
  bwrappers : Nat → LiveBlockingWrapper
  bAlloc : Nat → Bool
  nextW : Nat

/-- The empty initial state: nothing registered, nothing allocated. -/
def initSys : SysState :=
  { reg :=
      { registry := []
        headers := fun _ => ⟨0, .LiveClient, 0⟩
        headerAlloc := fun _ => false
        nextAddr := 1 }
    wrappers := fun _ => newLiveClientWrapper ""
    wAlloc := fun _ => false
    bwrappers := fun _ => ⟨false, "", "", false, 1, 30⟩
    bAlloc := fun _ => false
    nextW := 1 }

/-- Update the live wrapper stored at address `a`. -/
def updLiveW (s : SysState) (a : Nat) (g : LiveClientWrapper → LiveClientWrapper) : SysState :=
  { s with wrappers := setLiveW s.wrappers a (g (s.wrappers a)) }

/-- Update the blocking wrapper stored at address `a`. -/
def updBlockingW (s : SysState) (a : Nat) (g : LiveBlockingWrapper → LiveBlockingWrapper) :
    SysState :=
  { s with bwrappers := setBlockingW s.bwrappers a (g (s.bwrappers a)) }

/-- Embedding of `dbento_live_create(api_key, ...)`: allocates a `LiveClientWrapper` and a
validated handle for it; returns the null handle when `api_key` is null. -/
def dbento_live_create (s : SysState) (api_key : Option String) : SysState × Nat :=
  match api_key with
  | none => (s, 0)
  | some key =>
    let wptr := s.nextW
    let s1 : SysState :=
      { s with wrappers := setLiveW s.wrappers wptr (newLiveClientWrapper key)
               wAlloc := setFlag s.wAlloc wptr true
               nextW := s.nextW + 1 }
    let created := CreateValidatedHandle s1.reg .LiveClient wptr
    ({ s1 with reg := created.1 }, created.2)

/-- Embedding of `dbento_live_blocking_create_ex(api_key, dataset, ...)`: validates that
`api_key` and `dataset` are non-null and non-empty (throwing — hence returning
the null handle — otherwise), allocates a `LiveBlockingWrapper` and a validated
handle of type `LiveBlocking` for it. -/
def dbento_live_blocking_create_ex (s : SysState) (api_key dataset : Option String)
    (send_ts_out upgrade_policy : Nat) (heartbeat_interval_secs : Int) : SysState × Nat :=
  match api_key, dataset with
  | some key, some ds =>
    if key = "" ∨ ds = "" then (s, 0)
    else
      let w : LiveBlockingWrapper :=
        { client := false
          dataset := ds
          api_key := key
          send_ts_out := send_ts_out ≠ 0
          upgrade_policy := upgrade_policy
          heartbeat_interval_secs := heartbeat_interval_secs }
      let wptr := s.nextW
      let s1 : SysState :=
        { s with bwrappers := setBlockingW s.bwrappers wptr w
                 bAlloc := setFlag s.bAlloc wptr true
                 nextW := s.nextW + 1 }
      let created := CreateValidatedHandle s1.reg .LiveBlocking wptr
      ({ s1 with reg := created.1 }, created.2)
  | _, _ => (s, 0)

/-! ## Push-mode delivery (`LiveClientWrapper::OnRecord`) -/

/-- Embedding of `db::KeepGoing`: the delivery callback's verdict to the background thread. -/
inductive KeepGoing : Type
  | Continue
  | Stop
deriving DecidableEq, Repr

/-- Behaviour of the caller-supplied record callback on one delivery: it may
return normally, reentrantly request stop (`dbento_live_stop` takes no lock, so
a callback can clear the running flag), throw a `std::exception`, or throw a
non-standard exception. -/
inductive CbBehavior : Type
  | normal
  | normalStop
  | throwsStd
  | throwsOther
deriving DecidableEq, Repr

/-- Observable callback invocations made during one delivery. -/
inductive CbEvent : Type
  | recordCb
  | errorCb (code : Int)
deriving DecidableEq, Repr

/-- Result of one `OnRecord` delivery: the wrapper state afterwards, the
`KeepGoing` verdict returned to the transport, and the callbacks invoked. -/
structure OnRecordResult where
  wrapper : LiveClientWrapper
  verdict : KeepGoing
  events : List CbEvent
deriving DecidableEq, Repr

/-- Embedding of `LiveClientWrapper::OnRecord(record)`: under the callback mutex — check the
running flag (stop if cleared); invoke the record callback if set; catch any
exception it raises, report it once via the error callback (`-999` for
`std::exception`, `-998` otherwise) when one is set, clear the running flag and
stop; finally return `Continue` iff the running flag is still set. -/
def OnRecord (w : LiveClientWrapper) (b : CbBehavior) : OnRecordResult :=
  if w.is_running = false then ⟨w, .Stop, []⟩
  else if w.record_callback then
    match b with
    | .normal => ⟨w, if w.is_running then .Continue else .Stop, [.recordCb]⟩
    | .normalStop =>
      let w1 := { w with is_running := false }
      ⟨w1, if w1.is_running then .Continue else .Stop, [.recordCb]⟩
    | .throwsStd =>
      let evs := [CbEvent.recordCb] ++ (if w.error_callback then [CbEvent.errorCb (-999)] else [])
      ⟨{ w with is_running := false }, .Stop, evs⟩
    | .throwsOther =>
      let evs := [CbEvent.recordCb] ++ (if w.error_callback then [CbEvent.errorCb (-998)] else [])
      ⟨{ w with is_running := false }, .Stop, evs⟩
  else ⟨w, if w.is_running then .Continue else .Stop, []⟩

/-- Iterated deliveries: the verdict and callback events of each successive
`OnRecord` invocation, threading the wrapper state. -/
def deliverSeq : LiveClientWrapper → List CbBehavior → List (KeepGoing × List CbEvent)
  | _, [] => []
  | w, b :: bs =>
    let r := OnRecord w b
    (r.verdict, r.events) :: deliverSeq r.wrapper bs

/-! ## Stop and the four-phase shutdown protocol -/

/-- Observable steps of the teardown operations, in execution order. -/
inductive DestroyEvent : Type
  | storeRunningFalse
  | blockForStopSecs (timeout : Nat)
  | acquireCallbackLock
  | releaseCallbackLock
  | freeWrapper (addr : Nat)
  | destroyHandle (addr : Nat)
deriving DecidableEq, Repr

/-- Embedding of `dbento_live_stop(handle)`: validates the handle and, on success, only
stores the running flag false; everything else is untouched. -/
def dbento_live_stop (s : SysState) (handle : Nat) : SysState :=
  match (ValidateAndCast s.reg handle .LiveClient).1 with
  | none => s
  | some w => updLiveW s w (fun wr => { wr with is_running := false })

/-- Embedding of `dbento_live_destroy(handle)`: validates the handle; on success runs the
four ordered phases — (1) store the running flag false, (2) `BlockForStop`
with a 5-second bound when the underlying client was ever built, (3) acquire
and release the callback mutex, (4) delete the wrapper and destroy the
validated handle. Returns the new state and the ordered event trace. -/
def dbento_live_destroy (s : SysState) (handle : Nat) : SysState × List DestroyEvent :=
  match (ValidateAndCast s.reg handle .LiveClient).1 with
  | none => (s, [])
  | some w =>
    let ev1 := [DestroyEvent.storeRunningFalse]
    let ev2 := if (s.wrappers w).client then [DestroyEvent.blockForStopSecs 5] else []
    let ev3 := [DestroyEvent.acquireCallbackLock, DestroyEvent.releaseCallbackLock]
    let s1 := updLiveW s w (fun wr => { wr with is_running := false })
    let s2 : SysState := { s1 with wAlloc := setFlag s1.wAlloc w false }
    let s3 : SysState := { s2 with reg := DestroyValidatedHandle s2.reg handle }
    (s3, ev1 ++ ev2 ++ ev3 ++ [DestroyEvent.freeWrapper w, DestroyEvent.destroyHandle handle])

/-- Embedding of `dbento_live_blocking_destroy(handle)`: validates the handle and, on
success, deletes the wrapper. The source never calls
`DestroyValidatedHandle`, so the handle stays registered. -/
def dbento_live_blocking_destroy (s : SysState) (handle : Nat) :
    SysState × List DestroyEvent :=
  match (ValidateAndCast s.reg handle .LiveBlocking).1 with
  | none => (s, [])
  | some w =>
    ({ s with bAlloc := setFlag s.bAlloc w false }, [DestroyEvent.freeWrapper w])

/-! ## Parameter validation helpers (common_helpers.hpp) and subscribe -/

/-- Embedding of `databento::Schema` values reachable from `ParseSchema`. -/
inductive Schema : Type
  | Mbo | Mbp1 | Mbp10
  | Trades | Tbbo | Tcbbo
  | Ohlcv1S | Ohlcv1M | Ohlcv1H | Ohlcv1D | OhlcvEod
  | Bbo1S | Bbo1M
  | Cmbp1 | Cbbo1S | Cbbo1M
  | Definition | Statistics | Status | Imbalance
deriving DecidableEq, Repr

/-- Embedding of `ParseSchema(schema_str)`: maps a schema name to the `Schema` enumeration,
throwing (`.error`) on an unknown name. -/
def parseSchema (schema_str : String) : Except String Schema :=
  if schema_str = "mbo" then .ok .Mbo
  else if schema_str = "mbp-1" then .ok .Mbp1
  else if schema_str = "mbp-10" then .ok .Mbp10
  else if schema_str = "trades" then .ok .Trades
  else if schema_str = "tbbo" then .ok .Tbbo
  else if schema_str = "tcbbo" then .ok .Tcbbo
  else if schema_str = "ohlcv-1s" then .ok .Ohlcv1S
  else if schema_str = "ohlcv-1m" then .ok .Ohlcv1M
  else if schema_str = "ohlcv-1h" then .ok .Ohlcv1H
  else if schema_str = "ohlcv-1d" then .ok .Ohlcv1D
  else if schema_str = "ohlcv-eod" then .ok .OhlcvEod
  else if schema_str = "bbo-1s" then .ok .Bbo1S
  else if schema_str = "bbo-1m" then .ok .Bbo1M
  else if schema_str = "cmbp-1" then .ok .Cmbp1
  else if schema_str = "cbbo-1s" then .ok .Cbbo1S
  else if schema_str = "cbbo-1m" then .ok .Cbbo1M
  else if schema_str = "definition" then .ok .Definition
  else if schema_str = "statistics" then .ok .Statistics
  else if schema_str = "status" then .ok .Status
  else if schema_str = "imbalance" then .ok .Imbalance
  else .error ("Unknown schema: " ++ schema_str)

/-- Embedding of `ValidateNonEmptyString(param_name, value)`: throws if the string is null
or empty. C strings are modelled as `Option String` (`none` = null pointer). -/
def ValidateNonEmptyStringM (param_name : String) (value : Option String) :
    Except String Unit :=
  match value with
  | none => .error (param_name ++ " cannot be NULL")
  | some v => if v = "" then .error (param_name ++ " cannot be empty") else .ok ()

def MAX_SYMBOLS : Nat := 100000

def MAX_SYMBOL_LENGTH : Nat := 1024

def MAX_TOTAL_SIZE : Nat := 10 * 1024 * 1024

/-- The per-symbol loop of `ValidateSymbolArray`: rejects null elements,
over-long symbols (via `strnlen` capped at `MAX_SYMBOL_LENGTH + 1`), and an
aggregate size beyond `MAX_TOTAL_SIZE`. -/
def validateSymbolLoop : List (Option String) → Nat → Except String Unit
  | [], _ => .ok ()
  | none :: _, _ => .error "Symbol array contains NULL element"
  | some sym :: rest, total =>
    let len := min sym.length (MAX_SYMBOL_LENGTH + 1)
    if len > MAX_SYMBOL_LENGTH then .error "Symbol exceeds maximum length"
    else if total + len > MAX_TOTAL_SIZE then
      .error "Total symbol data size exceeds maximum limit"
    else validateSymbolLoop rest (total + len)

/-- Embedding of `ValidateSymbolArray(symbols, symbol_count)`: throws if the array pointer
is null while the count is positive, if the count exceeds `MAX_SYMBOLS`, or if
the per-symbol loop rejects. A symbol array is an `Option` (null pointer or
array contents), whose entries are themselves nullable strings. -/
def ValidateSymbolArray (symbols : Option (List (Option String))) (symbol_count : Nat) :
    Except String Unit :=
  if 0 < symbol_count ∧ symbols = none then
    .error "Symbol array cannot be NULL when symbol_count > 0"
  else if symbol_count > MAX_SYMBOLS then .error "Symbol count exceeds maximum limit"
  else
    match symbols with
    | none => .ok ()
    | some l => validateSymbolLoop (l.take symbol_count) 0

/-- The symbol-vector construction shared by the threaded subscribe entry
points: the non-null entries among the first `symbol_count` array slots. -/
def symbolVec (symbols : Option (List (Option String))) (symbol_count : Nat) :
    List String :=
  match symbols with
  | none => []
  | some l => (l.take symbol_count).filterMap id

/-- The symbol-vector conversion loop of the blocking subscribe entry points,
which instead fails on the first null entry. -/
def convertSymbolsLoop : List (Option String) → Except String (List String)
  | [] => .ok []
  | none :: _ => .error "Symbol cannot be null"
  | some sym :: rest => (convertSymbolsLoop rest).map (fun v => sym :: v)

/-- Embedding of `db::SType` argument passed to the underlying `Subscribe` calls. -/
inductive SType : Type
  | RawSymbol
deriving DecidableEq, Repr

/-- A subscription call issued to the underlying client, with its arguments.
Replay carries the `UnixNanos` start value (a `uint64_t` nanosecond count). -/
inductive SubCall : Type
  | plain (symbols : List String) (schema : Schema) (stype : SType)
  | withSnapshot (symbols : List String) (schema : Schema) (stype : SType)
  | withReplay (symbols : List String) (schema : Schema) (stype : SType) (start : Nat)
deriving DecidableEq, Repr

/-- Result of a boundary-facing call: the state afterwards, the integer status,
the message written to the caller's error buffer (if any), and the calls issued
to the underlying client. -/
structure CallOut where
  state : SysState
  status : Int
  errMsg : Option String
  calls : List SubCall

/-- The C++ conversion of the signed `start_time_ns` to the unsigned
`UnixNanos` representation: reduction modulo `2 ^ 64`. -/
def toUnixNanosWrapped (ns : Int) : Nat := (ns % (2 : Int) ^ 64).toNat

/-- Embedding of `dbento_live_subscribe(handle, dataset, schema, symbols, symbol_count, ...)`:
validate the handle, the dataset/schema strings and the symbol array; store the
dataset on the wrapper; build the symbol vector; parse the schema; lazily build
the client; issue `Subscribe(symbol_vec, schema, RawSymbol)`. Any thrown
validation error is caught and reported as status `-1` with a message. -/
def dbento_live_subscribe (s : SysState) (handle : Nat) (dataset schema : Option String)
    (symbols : Option (List (Option String))) (symbol_count : Nat) : CallOut :=
  match (ValidateAndCast s.reg handle .LiveClient).1 with
  | none =>
    ⟨s, -1, some (GetValidationErrorMessage (ValidateAndCast s.reg handle .LiveClient).2), []⟩
  | some w =>
    match ValidateNonEmptyStringM "dataset" dataset with
    | .error e => ⟨s, -1, some e, []⟩
    | .ok _ =>
    match ValidateNonEmptyStringM "schema" schema with
    | .error e => ⟨s, -1, some e, []⟩
    | .ok _ =>
    match ValidateSymbolArray symbols symbol_count with
    | .error e => ⟨s, -1, some e, []⟩
    | .ok _ =>
      let s1 := updLiveW s w (fun wr => { wr with dataset := dataset.getD "" })
      let vec := symbolVec symbols symbol_count
      match parseSchema (schema.getD "") with
      | .error e => ⟨s1, -1, some e, []⟩
      | .ok sch =>
        let s2 := updLiveW s1 w (fun wr => { wr with client := true })
        ⟨s2, 0, none, [SubCall.plain vec sch SType.RawSymbol]⟩

/-- Embedding of `dbento_live_subscribe_with_replay(...)`: as `dbento_live_subscribe`, but
the dataset is stored only when the wrapper's dataset is still empty, and the
subscription carries the replay start time converted to `UnixNanos`. No check
rejects a negative `start_time_ns`. -/
def dbento_live_subscribe_with_replay (s : SysState) (handle : Nat)
    (dataset schema : Option String) (symbols : Option (List (Option String)))
    (symbol_count : Nat) (start_time_ns : Int) : CallOut :=
  match (ValidateAndCast s.reg handle .LiveClient).1 with
  | none =>
    ⟨s, -1, some (GetValidationErrorMessage (ValidateAndCast s.reg handle .LiveClient).2), []⟩
  | some w =>
    match ValidateNonEmptyStringM "dataset" dataset with
    | .error e => ⟨s, -1, some e, []⟩
    | .ok _ =>
    match ValidateNonEmptyStringM "schema" schema with
    | .error e => ⟨s, -1, some e, []⟩
    | .ok _ =>
    match ValidateSymbolArray symbols symbol_count with
    | .error e => ⟨s, -1, some e, []⟩
    | .ok _ =>
      let s1 :=
        if (s.wrappers w).dataset = "" then
          updLiveW s w (fun wr => { wr with dataset := dataset.getD "" })
        else s
      let vec := symbolVec symbols symbol_count
      match parseSchema (schema.getD "") with
      | .error e => ⟨s1, -1, some e, []⟩
      | .ok sch =>
        let s2 := updLiveW s1 w (fun wr => { wr with client := true })
        ⟨s2, 0, none,
          [SubCall.withReplay vec sch SType.RawSymbol (toUnixNanosWrapped start_time_ns)]⟩

/-- Embedding of `dbento_live_blocking_subscribe(...)`: validate handle and dataset/schema;
reject a null or empty symbol array with status `-2`; build the client; convert
the symbols (rejecting null entries with `-3`); parse the schema; issue
`Subscribe(symbol_vec, schema, RawSymbol)`. -/
def dbento_live_blocking_subscribe (s : SysState) (handle : Nat)
    (dataset schema : Option String) (symbols : Option (List (Option String)))
    (symbol_count : Nat) : CallOut :=
  match (ValidateAndCast s.reg handle .LiveBlocking).1 with
  | none =>
    ⟨s, -1, some (GetValidationErrorMessage (ValidateAndCast s.reg handle .LiveBlocking).2), []⟩
  | some w =>
    match ValidateNonEmptyStringM "dataset" dataset with
    | .error e => ⟨s, -1, some e, []⟩
    | .ok _ =>
    match ValidateNonEmptyStringM "schema" schema with
    | .error e => ⟨s, -1, some e, []⟩
    | .ok _ =>
    if symbols = none ∨ symbol_count = 0 then
      ⟨s, -2, some "Symbols array cannot be null or empty", []⟩
    else
      let s1 := updBlockingW s w (fun wr => { wr with client := true })
      match convertSymbolsLoop ((symbols.getD []).take symbol_count) with
      | .error e => ⟨s1, -3, some e, []⟩
      | .ok vec =>
        match parseSchema (schema.getD "") with
        | .error e => ⟨s1, -1, some e, []⟩
        | .ok sch => ⟨s1, 0, none, [SubCall.plain vec sch SType.RawSymbol]⟩

/-- Embedding of `dbento_live_blocking_subscribe_with_replay(...)`: as the blocking
subscribe, with the replay start time converted to `UnixNanos` and passed to
the underlying `Subscribe`. No check rejects a negative `start_time_ns`. -/
def dbento_live_blocking_subscribe_with_replay (s : SysState) (handle : Nat)
    (dataset schema : Option String) (symbols : Option (List (Option String)))
    (symbol_count : Nat) (start_time_ns : Int) : CallOut :=
  match (ValidateAndCast s.reg handle .LiveBlocking).1 with
  | none =>
    ⟨s, -1, some (GetValidationErrorMessage (ValidateAndCast s.reg handle .LiveBlocking).2), []⟩
  | some w =>
    match ValidateNonEmptyStringM "dataset" dataset with
    | .error e => ⟨s, -1, some e, []⟩
    | .ok _ =>
    match ValidateNonEmptyStringM "schema" schema with
    | .error e => ⟨s, -1, some e, []⟩
    | .ok _ =>
    if symbols = none ∨ symbol_count = 0 then
      ⟨s, -2, some "Symbols array cannot be null or empty", []⟩
    else
      let s1 := updBlockingW s w (fun wr => { wr with client := true })
      match convertSymbolsLoop ((symbols.getD []).take symbol_count) with
      | .error e => ⟨s1, -3, some e, []⟩
      | .ok vec =>
        match parseSchema (schema.getD "") with
        | .error e => ⟨s1, -1, some e, []⟩
        | .ok sch =>
          ⟨s1, 0, none,
            [SubCall.withReplay vec sch SType.RawSymbol (toUnixNanosWrapped start_time_ns)]⟩

/-! ## Pull-mode delivery (`dbento_live_blocking_next_record`) -/

/-- A record as seen at the boundary: its byte size and its rtype tag. -/
structure RecordVal where
  size : Nat
  rtype : Nat
deriving DecidableEq, Repr

/-- Outcome of one `dbento_live_blocking_next_record` call: the status, the
record copied to the caller's buffer (if any), and the error message written
to the error buffer (if any). -/
structure NextRecordOut where
  status : Int
  recordOut : Option RecordVal
  errMsg : Option String
deriving DecidableEq, Repr

/-- The tail of the function after a record arrives: reject a record larger
than the caller's buffer with `-3`, otherwise copy it out and succeed. -/
def copyRecordOut (r : RecordVal) (record_buffer_size : Nat) : NextRecordOut :=
  if r.size > record_buffer_size then ⟨-3, none, some "Record buffer too small"⟩
  else ⟨0, some r, none⟩

/-- Embedding of `dbento_live_blocking_next_record(handle, record_buffer, ..., timeout_ms, ...)`.
The underlying client is an external collaborator; its behaviour on this call
is the parameter `blockingResult` (outcome of the untimed `NextRecord()`,
which blocks until a record or throws) and `timedResult` (outcome of
`NextRecord(timeout)`: a record, `none` on timeout, or a throw).
`outputs_nonnull` states that `record_buffer`, `out_record_length` and
`out_record_type` are all non-null. -/
def dbento_live_blocking_next_record (s : SysState) (handle : Nat)
    (outputs_nonnull : Bool) (record_buffer_size : Nat) (timeout_ms : Int)
    (blockingResult : Except String RecordVal)
    (timedResult : Except String (Option RecordVal)) : NextRecordOut :=
  match (ValidateAndCast s.reg handle .LiveBlocking).1 with
  | none =>
    ⟨-1, none, some (GetValidationErrorMessage (ValidateAndCast s.reg handle .LiveBlocking).2)⟩
  | some w =>
    if (s.bwrappers w).client = false then ⟨-1, none, some "Client not initialized"⟩
    else if outputs_nonnull = false then ⟨-2, none, some "Output parameters cannot be null"⟩
    else if timeout_ms < 0 then
      match blockingResult with
      | .error e => ⟨-1, none, some e⟩
      | .ok r => copyRecordOut r record_buffer_size
    else
      match timedResult with
      | .error e => ⟨-1, none, some e⟩
      | .ok none => ⟨1, none, none⟩
      | .ok (some r) => copyRecordOut r record_buffer_size

/-! ## SafeStrCopy (common_helpers.hpp) -/

def MIN_ERROR_BUFFER_SIZE : Nat := 16

def MAX_ERROR_BUFFER_SIZE : Nat := 65536

/-- The null character. -/
def nulChar : Char := Char.ofNat 0

/-- Embedding of `strncpy(dest, src, n)` restricted to a buffer: writes the first `n` cells
of `buf` with `src` truncated to `n` characters and null-padded, leaving the
rest of the buffer untouched. -/
def strncpyBuf (buf src : List Char) (n : Nat) : List Char :=
  (src.take n ++ List.replicate (n - src.length) nulChar) ++ buf.drop n

/-- Embedding of `SafeStrCopy(dest, dest_size, src)`. The destination is `none` for a null
pointer or `some buf` for a buffer whose actual allocated size is `buf.length`
(the function's documented contract is that `dest_size` equals the allocation
size). Returns the success flag and the buffer contents afterwards. -/
def SafeStrCopy (dest : Option (List Char)) (src : Option (List Char)) :
    Bool × Option (List Char) :=
  match dest with
  | none => (false, none)
  | some buf =>
    if buf.length = 0 then (false, some buf)
    else if buf.length < MIN_ERROR_BUFFER_SIZE then
      match src with
      | none => (false, some (buf.set 0 nulChar))
      | some srcL =>
        if srcL = [] then (false, some (buf.set 0 nulChar))
        else
          (false, some ((strncpyBuf buf srcL (buf.length - 1)).set (buf.length - 1) nulChar))
    else
      let safe_size := min buf.length MAX_ERROR_BUFFER_SIZE
      match src with
      | none => (true, some (buf.set 0 nulChar))
      | some srcL =>
        (true, some ((strncpyBuf buf srcL (safe_size - 1)).set (safe_size - 1) nulChar))

/-- The C string held in a buffer: the characters before the first null. -/
def cStr (l : List Char) : List Char := l.takeWhile (fun c => c ≠ nulChar)

/-! ## Concrete states used by the witnesses -/

/-- A state holding one freshly created live (push-mode) client. -/
def sLive : SysState := (dbento_live_create initSys (some "test-key")).1

/-- The handle produced by that creation. -/
def hLive : Nat := (dbento_live_create initSys (some "test-key")).2

/-- A running push-mode wrapper with record and error callbacks installed. -/
def wRun : LiveClientWrapper :=
  { newLiveClientWrapper "test-key" with
      record_callback := true
      error_callback := true
      is_running := true }

/-! ## Claims -/

/-- C3: `ValidateAndCast` performs its five checks in the fixed order (handle
non-null, marker equals the live sentinel, address registered, type tag equals
the expected type, wrapper pointer non-null), short-circuits on the first
failing check, reports the error specific to that check, and returns a
non-null typed pointer if and only if all five checks pass. Each error's
characterization includes the success of every earlier check, which is exactly
the fixed order and the short-circuiting. -/
theorem validateAndCast_checks_in_order (s : RegistryState) (h : Nat) (t : HandleType) :
    ((ValidateAndCast s h t).2 = .NullHandle ↔ h = 0)
    ∧ ((ValidateAndCast s h t).2 = .InvalidMagic ↔
        h ≠ 0 ∧ (s.headers h).magic ≠ HANDLE_MAGIC)
    ∧ ((ValidateAndCast s h t).2 = .NotRegistered ↔
        h ≠ 0 ∧ (s.headers h).magic = HANDLE_MAGIC ∧ h ∉ s.registry)
    ∧ ((ValidateAndCast s h t).2 = .WrongType ↔
        h ≠ 0 ∧ (s.headers h).magic = HANDLE_MAGIC ∧ h ∈ s.registry
          ∧ (s.headers h).type ≠ t)
    ∧ ((ValidateAndCast s h t).2 = .NullWrapperPtr ↔
        h ≠ 0 ∧ (s.headers h).magic = HANDLE_MAGIC ∧ h ∈ s.registry
          ∧ (s.headers h).type = t ∧ (s.headers h).wrapper_ptr = 0)
    ∧ ((ValidateAndCast s h t).2 = .Success ↔
        h ≠ 0 ∧ (s.headers h).magic = HANDLE_MAGIC ∧ h ∈ s.registry
          ∧ (s.headers h).type = t ∧ (s.headers h).wrapper_ptr ≠ 0)
    ∧ ((ValidateAndCast s h t).1 ≠ none ↔ (ValidateAndCast s h t).2 = .Success)
    ∧ (∀ p, (ValidateAndCast s h t).1 = some p →
        p = (s.headers h).wrapper_ptr ∧ p ≠ 0) := by
  unfold ValidateAndCast
  split_ifs with h1 h2 h3 h4 h5 <;> simp_all

/-- Witness for C3: applying the characterization at the concrete created
state shows a valid fresh handle validates successfully and the null handle
reports `NullHandle`. -/
theorem validateAndCast_checks_in_order_witness :
    (ValidateAndCast sLive.reg 0 HandleType.LiveClient).2 = ValidationError.NullHandle
    ∧ (ValidateAndCast sLive.reg hLive HandleType.LiveClient).2 = ValidationError.Success :=
  ⟨(validateAndCast_checks_in_order sLive.reg 0 HandleType.LiveClient).1.mpr rfl,
   (validateAndCast_checks_in_order sLive.reg hLive HandleType.LiveClient).2.2.2.2.2.1.mpr
     (by decide)⟩

/-- C2: for every streaming-client handle that passes validation,
`dbento_live_destroy` performs its phases in this exact order and never out of
it: store the running flag false, then the bounded `BlockForStop` join (present
exactly when the underlying client was ever built), then acquire and release
the callback-invocation lock, and only after those free the wrapper and destroy
the handle. The wrapper free is preceded by the flag clear, the join (when a
client exists), and the lock acquisition/release. -/
theorem live_destroy_four_phase_order (s : SysState) (handle w : Nat)
    (hv : (ValidateAndCast s.reg handle .LiveClient).1 = some w) :
    (dbento_live_destroy s handle).2 =
      [DestroyEvent.storeRunningFalse]
        ++ (if (s.wrappers w).client then [DestroyEvent.blockForStopSecs 5] else [])
        ++ [DestroyEvent.acquireCallbackLock, DestroyEvent.releaseCallbackLock,
            DestroyEvent.freeWrapper w, DestroyEvent.destroyHandle handle]
    ∧ (∃ pre, (dbento_live_destroy s handle).2 =
          pre ++ [DestroyEvent.freeWrapper w, DestroyEvent.destroyHandle handle]
        ∧ pre.head? = some DestroyEvent.storeRunningFalse
        ∧ DestroyEvent.acquireCallbackLock ∈ pre
        ∧ DestroyEvent.releaseCallbackLock ∈ pre
        ∧ ((s.wrappers w).client = true → DestroyEvent.blockForStopSecs 5 ∈ pre)
        ∧ DestroyEvent.freeWrapper w ∉ pre)
    ∧ (dbento_live_destroy s handle).1.wAlloc w = false := by
  refine ⟨?_, ?_, ?_⟩
  · cases hc : (s.wrappers w).client <;> simp [dbento_live_destroy, hv, hc]
  · refine ⟨[DestroyEvent.storeRunningFalse]
        ++ (if (s.wrappers w).client then [DestroyEvent.blockForStopSecs 5] else [])
        ++ [DestroyEvent.acquireCallbackLock, DestroyEvent.releaseCallbackLock], ?_, ?_⟩
    · cases hc : (s.wrappers w).client <;> simp [dbento_live_destroy, hv, hc]
    · cases hc : (s.wrappers w).client <;> simp [hc]
  · simp [dbento_live_destroy, hv, updLiveW, setLiveW, setFlag]

/-- Witness for C2: the four-phase order at a concrete freshly created client
(whose underlying client was never built, so no join event appears). -/
theorem live_destroy_four_phase_order_witness :
    (dbento_live_destroy sLive hLive).2 =
      [DestroyEvent.storeRunningFalse, DestroyEvent.acquireCallbackLock,
       DestroyEvent.releaseCallbackLock, DestroyEvent.freeWrapper 1,
       DestroyEvent.destroyHandle 1] := by
  have h := (live_destroy_four_phase_order sLive hLive 1 (by decide)).1
  simpa using h

/-- C8: `dbento_live_stop` on a valid streaming-client handle performs only
shutdown phase 1 — it stores the running flag false — and leaves everything
else intact: the underlying client, the callbacks, the user-data pointer, the
wrapper's other fields, every other wrapper, the wrapper allocation, and the
handle's registration (the registry state is unchanged and the handle still
validates to the same wrapper afterwards). -/
theorem live_stop_only_clears_running_flag (s : SysState) (handle w : Nat)
    (hv : (ValidateAndCast s.reg handle .LiveClient).1 = some w) :
    (dbento_live_stop s handle).reg = s.reg
    ∧ (dbento_live_stop s handle).wAlloc = s.wAlloc
    ∧ (dbento_live_stop s handle).bwrappers = s.bwrappers
    ∧ (dbento_live_stop s handle).bAlloc = s.bAlloc
    ∧ (dbento_live_stop s handle).nextW = s.nextW
    ∧ ((dbento_live_stop s handle).wrappers w).is_running = false
    ∧ ((dbento_live_stop s handle).wrappers w).client = (s.wrappers w).client
    ∧ ((dbento_live_stop s handle).wrappers w).record_callback
        = (s.wrappers w).record_callback
    ∧ ((dbento_live_stop s handle).wrappers w).metadata_callback
        = (s.wrappers w).metadata_callback
    ∧ ((dbento_live_stop s handle).wrappers w).error_callback
        = (s.wrappers w).error_callback
    ∧ ((dbento_live_stop s handle).wrappers w).user_data = (s.wrappers w).user_data
    ∧ ((dbento_live_stop s handle).wrappers w).dataset = (s.wrappers w).dataset
    ∧ ((dbento_live_stop s handle).wrappers w).api_key = (s.wrappers w).api_key
    ∧ (∀ p, p ≠ w → (dbento_live_stop s handle).wrappers p = s.wrappers p)
    ∧ (ValidateAndCast (dbento_live_stop s handle).reg handle .LiveClient).1 = some w := by
  have hstop : dbento_live_stop s handle
      = updLiveW s w (fun wr => { wr with is_running := false }) := by
    simp only [dbento_live_stop, hv]
  rw [hstop]
  refine ⟨rfl, rfl, rfl, rfl, rfl,
    by simp [updLiveW, setLiveW], by simp [updLiveW, setLiveW], by simp [updLiveW, setLiveW],
    by simp [updLiveW, setLiveW], by simp [updLiveW, setLiveW], by simp [updLiveW, setLiveW],
    by simp [updLiveW, setLiveW], by simp [updLiveW, setLiveW], ?_, hv⟩
  intro p hp
  simp [updLiveW, setLiveW, hp]

/-- Witness for C8: stopping a concrete freshly created client clears only the
running flag and the handle still validates afterwards. -/
theorem live_stop_only_clears_running_flag_witness :
    ((dbento_live_stop sLive hLive).wrappers 1).is_running = false
    ∧ (ValidateAndCast (dbento_live_stop sLive hLive).reg hLive HandleType.LiveClient).1
        = some 1 := by
  have h := live_stop_only_clears_running_flag sLive hLive 1 (by decide)
  exact ⟨h.2.2.2.2.2.1, h.2.2.2.2.2.2.2.2.2.2.2.2.2.2⟩

/-- Recognizer for error-callback invocations among delivery events. -/
def isErrorCb : CbEvent → Bool
  | .errorCb _ => true
  | .recordCb => false

/-- A delivery reaching a wrapper whose running flag is cleared performs no
callback at all and returns `Stop`, leaving the wrapper unchanged. -/
theorem onRecord_not_running (w : LiveClientWrapper) (b : CbBehavior)
    (h : w.is_running = false) : OnRecord w b = ⟨w, .Stop, []⟩ := by
  simp [OnRecord, h]

/-- Once the running flag is cleared, every subsequent delivery returns `Stop`
and invokes no callback. -/
theorem deliverSeq_not_running (w : LiveClientWrapper) (h : w.is_running = false)
    (bs : List CbBehavior) :
    ∀ p ∈ deliverSeq w bs, p.1 = KeepGoing.Stop ∧ p.2 = [] := by
  induction bs with
  | nil => intro p hp; cases hp
  | cons b rest ih =>
    intro p hp
    have hr : OnRecord w b = ⟨w, .Stop, []⟩ := onRecord_not_running w b h
    simp only [deliverSeq, hr] at hp
    rcases List.mem_cons.mp hp with h1 | h1
    · exact ⟨by simp [h1], by simp [h1]⟩
    · exact ih p h1

/-- C4: a push-mode delivery whose record callback raises an exception is
caught: the error callback is invoked exactly once (when set) with a reserved
internal code (`-999` or `-998`), the running flag is stored false, and `Stop`
is returned; and in every delivery after that one no record callback fires and
`Stop` is returned. -/
theorem onRecord_exception_fail_stop (w : LiveClientWrapper) (b : CbBehavior)
    (hrun : w.is_running = true) (hcb : w.record_callback = true)
    (hthrow : b = .throwsStd ∨ b = .throwsOther) :
    (OnRecord w b).verdict = KeepGoing.Stop
    ∧ (OnRecord w b).wrapper.is_running = false
    ∧ (w.error_callback = true →
        ∃ c, (c = (-999 : Int) ∨ c = (-998 : Int))
          ∧ (OnRecord w b).events = [CbEvent.recordCb, CbEvent.errorCb c])
    ∧ (w.error_callback = false → (OnRecord w b).events = [CbEvent.recordCb])
    ∧ (w.error_callback = true → (OnRecord w b).events.countP isErrorCb = 1)
    ∧ (∀ bs, ∀ p ∈ deliverSeq (OnRecord w b).wrapper bs,
        p.1 = KeepGoing.Stop ∧ p.2 = []) := by
  have hstop : (OnRecord w b).wrapper.is_running = false := by
    rcases hthrow with h | h <;> subst h <;> simp [OnRecord, hrun, hcb]
  refine ⟨?_, hstop, ?_, ?_, ?_, fun bs => deliverSeq_not_running _ hstop bs⟩
  · rcases hthrow with h | h <;> subst h <;> simp [OnRecord, hrun, hcb]
  · intro herr
    rcases hthrow with h | h <;> subst h
    · exact ⟨-999, Or.inl rfl, by simp [OnRecord, hrun, hcb, herr]⟩
    · exact ⟨-998, Or.inr rfl, by simp [OnRecord, hrun, hcb, herr]⟩
  · intro herr
    rcases hthrow with h | h <;> subst h <;> simp [OnRecord, hrun, hcb, herr]
  · intro herr
    rcases hthrow with h | h <;> subst h <;>
      simp [OnRecord, hrun, hcb, herr, List.countP, List.countP.go, isErrorCb]

/-- Witness for C4: a concrete running wrapper whose callback throws a
standard exception stops, reports once, and delivers nothing afterwards. -/
theorem onRecord_exception_fail_stop_witness :
    (OnRecord wRun CbBehavior.throwsStd).verdict = KeepGoing.Stop
    ∧ (OnRecord wRun CbBehavior.throwsStd).wrapper.is_running = false
    ∧ deliverSeq (OnRecord wRun CbBehavior.throwsStd).wrapper
        [CbBehavior.normal, CbBehavior.throwsOther]
        = [(KeepGoing.Stop, []), (KeepGoing.Stop, [])] := by
  have h := onRecord_exception_fail_stop wRun CbBehavior.throwsStd rfl rfl (Or.inl rfl)
  exact ⟨h.1, h.2.1, by decide⟩

/-- A state holding one freshly created pull-mode (blocking) client, with the
handle it produced. -/
def sBlkPair : SysState × Nat :=
  dbento_live_blocking_create_ex initSys (some "test-key") (some "GLBX.MDP3") 0 1 30

/-- C1 (code bug, evaluated at the failing input): a successful
`dbento_live_blocking_create_ex` produces a handle, yet after
`dbento_live_blocking_destroy` completes, `ValidateAndCast` on that handle
returns `Success` — not `NotRegistered` — and hands out the wrapper pointer
whose allocation was just freed. The destroy never calls
`DestroyValidatedHandle`, so the handle stays registered. -/
theorem blocking_destroy_leaves_stale_registered_handle :
    sBlkPair.2 ≠ 0
    ∧ (ValidateAndCast (dbento_live_blocking_destroy sBlkPair.1 sBlkPair.2).1.reg
        sBlkPair.2 HandleType.LiveBlocking).2 = ValidationError.Success
    ∧ (ValidateAndCast (dbento_live_blocking_destroy sBlkPair.1 sBlkPair.2).1.reg
        sBlkPair.2 HandleType.LiveBlocking).2 ≠ ValidationError.NotRegistered
    ∧ (ValidateAndCast (dbento_live_blocking_destroy sBlkPair.1 sBlkPair.2).1.reg
        sBlkPair.2 HandleType.LiveBlocking).1 = some 1
    ∧ (dbento_live_blocking_destroy sBlkPair.1 sBlkPair.2).1.bAlloc 1 = false := by
  decide

/-- C7 (code bug, evaluated at the failing input): destroying the same
pull-mode handle twice is not a safe no-op. The first
`dbento_live_blocking_destroy` frees the wrapper but leaves the handle
registered, so the second destroy passes validation and frees the same
wrapper again — a double free. For contrast, the push-mode path is a no-op on
the second call, but its subsequent validation reports `InvalidMagic` (the
tombstone is checked before the registry), not `NotRegistered`. -/
theorem blocking_destroy_second_call_double_frees :
    (dbento_live_blocking_destroy sBlkPair.1 sBlkPair.2).2 = [DestroyEvent.freeWrapper 1]
    ∧ (dbento_live_blocking_destroy sBlkPair.1 sBlkPair.2).1.bAlloc 1 = false
    ∧ (dbento_live_blocking_destroy
        (dbento_live_blocking_destroy sBlkPair.1 sBlkPair.2).1 sBlkPair.2).2
        = [DestroyEvent.freeWrapper 1]
    ∧ (dbento_live_destroy (dbento_live_destroy sLive hLive).1 hLive).2 = []
    ∧ (ValidateAndCast (dbento_live_destroy sLive hLive).1.reg hLive
        HandleType.LiveClient).2 = ValidationError.InvalidMagic := by
  decide

/-- A state holding both a live (push-mode) client (handle 1) and a blocking
(pull-mode) client (handle 2). -/
def sBoth : SysState :=
  (dbento_live_blocking_create_ex sLive (some "test-key") (some "GLBX.MDP3") 0 1 30).1

/-- The blocking handle in `sBoth`. -/
def hBlk2 : Nat :=
  (dbento_live_blocking_create_ex sLive (some "test-key") (some "GLBX.MDP3") 0 1 30).2

/-- A symbol count of zero passes `ValidateSymbolArray` whether or not the
array pointer is null. -/
theorem validateSymbolArray_zero_count (symbols : Option (List (Option String))) :
    ValidateSymbolArray symbols 0 = .ok () := by
  cases symbols <;> simp [ValidateSymbolArray, validateSymbolLoop, MAX_SYMBOLS]

/-- With a symbol count of zero the threaded subscribe's symbol vector is
empty. -/
theorem symbolVec_zero_count (symbols : Option (List (Option String))) :
    symbolVec symbols 0 = [] := by
  cases symbols <;> simp [symbolVec]

/-- C5 counterexample: on a valid streaming-client handle,
`dbento_live_subscribe` with a null symbol array and a symbol count of zero
returns success (status 0) and issues a subscription with an empty symbol
list on the underlying client — not a negative ConfigurationError status, and
not zero subscription calls, refuting the claim at this input. -/
theorem live_subscribe_empty_symbols_counterexample :
    (dbento_live_subscribe sLive hLive (some "GLBX.MDP3") (some "mbo") none 0).status = 0
    ∧ (dbento_live_subscribe sLive hLive (some "GLBX.MDP3") (some "mbo") none 0).calls
        = [SubCall.plain [] Schema.Mbo SType.RawSymbol]
    ∧ ¬ ((dbento_live_subscribe sLive hLive (some "GLBX.MDP3") (some "mbo") none 0).status < 0
          ∧ (dbento_live_subscribe sLive hLive (some "GLBX.MDP3") (some "mbo") none 0).calls
              = []) := by
  decide

/-- C5 amended: the pull-mode (blocking) subscribe rejects a null or empty
symbol list with a negative status (−2) and an error message, issuing no
subscription; the push-mode (threaded) subscribe rejects a null symbol array
only when the symbol count is positive (status −1, message, no subscription),
while with a symbol count of zero it succeeds and issues a subscription with
an empty symbol list. -/
theorem subscribe_empty_symbols_amended (s : SysState) (hT wT hB wB : Nat)
    (dataset schema : Option String) (symbols : Option (List (Option String)))
    (count : Nat) (sch : Schema)
    (hvT : (ValidateAndCast s.reg hT .LiveClient).1 = some wT)
    (hvB : (ValidateAndCast s.reg hB .LiveBlocking).1 = some wB)
    (hds : ValidateNonEmptyStringM "dataset" dataset = .ok ())
    (hsch : ValidateNonEmptyStringM "schema" schema = .ok ())
    (hparse : parseSchema (schema.getD "") = .ok sch) :
    (symbols = none ∨ count = 0 →
      (dbento_live_blocking_subscribe s hB dataset schema symbols count).status = -2
      ∧ (dbento_live_blocking_subscribe s hB dataset schema symbols count).errMsg
          = some "Symbols array cannot be null or empty"
      ∧ (dbento_live_blocking_subscribe s hB dataset schema symbols count).calls = [])
    ∧ (0 < count → symbols = none →
      (dbento_live_subscribe s hT dataset schema symbols count).status = -1
      ∧ (dbento_live_subscribe s hT dataset schema symbols count).errMsg
          = some "Symbol array cannot be NULL when symbol_count > 0"
      ∧ (dbento_live_subscribe s hT dataset schema symbols count).calls = [])
    ∧ (count = 0 →
      (dbento_live_subscribe s hT dataset schema symbols count).status = 0
      ∧ (dbento_live_subscribe s hT dataset schema symbols count).calls
          = [SubCall.plain [] sch SType.RawSymbol]) := by
  refine ⟨?_, ?_, ?_⟩
  · intro hcase
    have hcond : symbols = none ∨ count = 0 := hcase
    simp only [dbento_live_blocking_subscribe, hvB, hds, hsch]
    rw [if_pos hcond]
    exact ⟨rfl, rfl, rfl⟩
  · intro hpos hnone
    subst hnone
    have hva : ValidateSymbolArray none count
        = .error "Symbol array cannot be NULL when symbol_count > 0" := by
      simp [ValidateSymbolArray, hpos]
    simp only [dbento_live_subscribe, hvT, hds, hsch, hva]
    simp
  · intro hzero
    subst hzero
    simp only [dbento_live_subscribe, hvT, hds, hsch, validateSymbolArray_zero_count,
      symbolVec_zero_count, hparse]
    simp

/-- Witness for C5's amended statement at a concrete state holding both a
push-mode and a pull-mode client: the blocking subscribe rejects the empty
symbol list with −2 and the threaded subscribe accepts it with status 0. -/
theorem subscribe_empty_symbols_amended_witness :
    (dbento_live_blocking_subscribe sBoth hBlk2 (some "GLBX.MDP3") (some "mbo") none 0).status
        = -2
    ∧ (dbento_live_subscribe sBoth hLive (some "GLBX.MDP3") (some "mbo") none 0).status = 0
    ∧ (dbento_live_subscribe sBoth hLive (some "GLBX.MDP3") (some "mbo") none 0).calls
        = [SubCall.plain [] Schema.Mbo SType.RawSymbol] := by
  have h := subscribe_empty_symbols_amended sBoth hLive 1 hBlk2 2
    (some "GLBX.MDP3") (some "mbo") none 0 Schema.Mbo
    (by decide) (by decide) rfl rfl rfl
  exact ⟨(h.1 (Or.inr rfl)).1, (h.2.2 rfl).1, (h.2.2 rfl).2⟩

/-- C6: on a valid pull-mode handle with an initialized client and non-null
output parameters, `dbento_live_blocking_next_record` with a negative timeout
never returns the timeout status `1`; with a non-negative timeout it returns
exactly one of three mutually distinguishable outcomes — status 0 with the
record copied out, status 1 with nothing written, or a negative status with an
error message. Status 0 is equivalent to a record having been copied out. -/
theorem next_record_three_outcomes (s : SysState) (handle w : Nat)
    (outputs_nonnull : Bool) (record_buffer_size : Nat) (timeout_ms : Int)
    (blockingResult : Except String RecordVal)
    (timedResult : Except String (Option RecordVal))
    (hv : (ValidateAndCast s.reg handle .LiveBlocking).1 = some w)
    (hc : (s.bwrappers w).client = true)
    (ho : outputs_nonnull = true) :
    let r := dbento_live_blocking_next_record s handle outputs_nonnull
      record_buffer_size timeout_ms blockingResult timedResult
    (timeout_ms < 0 → r.status ≠ 1)
    ∧ (0 ≤ timeout_ms →
        (r.status = 0 ∧ (∃ rec, r.recordOut = some rec) ∧ r.errMsg = none)
        ∨ (r.status = 1 ∧ r.recordOut = none ∧ r.errMsg = none)
        ∨ (r.status < 0 ∧ r.recordOut = none ∧ (∃ m, r.errMsg = some m)))
    ∧ (r.status = 0 ↔ ∃ rec, r.recordOut = some rec)
    ∧ (∀ rec, 0 ≤ timeout_ms → timedResult = .ok (some rec) →
        rec.size ≤ record_buffer_size → r = ⟨0, some rec, none⟩)
    ∧ (0 ≤ timeout_ms → timedResult = .ok none →
        r.status = 1 ∧ r.recordOut = none ∧ r.errMsg = none) := by
  have hr : dbento_live_blocking_next_record s handle outputs_nonnull
      record_buffer_size timeout_ms blockingResult timedResult
      = if timeout_ms < 0 then
          (match blockingResult with
           | .error e => ⟨-1, none, some e⟩
           | .ok rec => copyRecordOut rec record_buffer_size)
        else
          (match timedResult with
           | .error e => ⟨-1, none, some e⟩
           | .ok none => ⟨1, none, none⟩
           | .ok (some rec) => copyRecordOut rec record_buffer_size) := by
    simp [dbento_live_blocking_next_record, hv, hc, ho]
  refine ⟨?_, ?_, ?_, ?_, ?_⟩
  · intro ht
    rw [hr, if_pos ht]
    rcases blockingResult with e | rec
    · simp
    · simp only [copyRecordOut]
      split_ifs <;> simp
  · intro ht
    rw [hr, if_neg (by omega)]
    rcases timedResult with e | rec
    · exact Or.inr (Or.inr (by simp))
    · rcases rec with _ | rec
      · exact Or.inr (Or.inl (by simp))
      · simp only [copyRecordOut]
        split_ifs with hsz
        · exact Or.inr (Or.inr (by simp))
        · exact Or.inl (by simp)
  · rw [hr]
    split_ifs with ht
    · rcases blockingResult with e | rec
      · simp
      · simp only [copyRecordOut]
        split_ifs <;> simp
    · rcases timedResult with e | rec
      · simp
      · rcases rec with _ | rec
        · simp
        · simp only [copyRecordOut]
          split_ifs <;> simp
  · intro rec ht htimed hsz
    rw [hr, if_neg (by omega), htimed]
    simp [copyRecordOut, Nat.not_lt.mpr hsz]
  · intro ht htimed
    rw [hr, if_neg (by omega), htimed]
    simp

/-- The two-client state after a successful blocking subscribe, whose blocking
wrapper therefore has its underlying client built. -/
def sBothClient : SysState :=
  (dbento_live_blocking_subscribe sBoth hBlk2 (some "GLBX.MDP3") (some "mbo")
    (some [some "ES.FUT"]) 1).state

/-- Witness for C6: a concrete call with a non-negative timeout and a timed-out
collaborator returns exactly the timeout status with nothing written. -/
theorem next_record_three_outcomes_witness :
    (dbento_live_blocking_next_record sBothClient hBlk2 true 1024 100
        (Except.ok ⟨56, 1⟩) (Except.ok none)).status = 1
    ∧ (dbento_live_blocking_next_record sBothClient hBlk2 true 1024 100
        (Except.ok ⟨56, 1⟩) (Except.ok none)).recordOut = none := by
  have h := next_record_three_outcomes sBothClient hBlk2 2 true 1024 100
    (Except.ok ⟨56, 1⟩) (Except.ok none) (by decide) (by decide) rfl
  exact ⟨(h.2.2.2.2 (by omega) rfl).1, (h.2.2.2.2 (by omega) rfl).2.1⟩

/-- The threaded symbol vector of a fully non-null array is the symbol list
itself. -/
theorem symbolVec_map_some (l : List String) :
    symbolVec (some (l.map some)) l.length = l := by
  simp only [symbolVec]
  rw [show l.length = (l.map some).length by simp, List.take_length]
  induction l with
  | nil => rfl
  | cons x rest ih => simp_all [List.filterMap]

/-- The blocking conversion loop of a fully non-null array succeeds with the
symbol list itself. -/
theorem convertSymbolsLoop_map_some (l : List String) :
    convertSymbolsLoop ((l.map some).take l.length) = .ok l := by
  rw [show l.length = (l.map some).length by simp, List.take_length]
  induction l with
  | nil => rfl
  | cons x rest ih => simp [convertSymbolsLoop, ih, Except.map]

/-- C10: neither replay subscription entry point rejects a negative
`start_time_ns`: both convert the signed nanosecond count to an unsigned value
modulo `2 ^ 64` and issue the subscription with that wrapped timestamp (for
`ns ≥ -2 ^ 64` the wrapped value is `ns + 2 ^ 64`, e.g. `-1` becomes
`2 ^ 64 - 1`). -/
theorem subscribe_with_replay_negative_start_wraps (s : SysState) (hT wT hB wB : Nat)
    (dataset schema : Option String) (syms : List String) (ns : Int) (sch : Schema)
    (hvT : (ValidateAndCast s.reg hT .LiveClient).1 = some wT)
    (hvB : (ValidateAndCast s.reg hB .LiveBlocking).1 = some wB)
    (hds : ValidateNonEmptyStringM "dataset" dataset = .ok ())
    (hsch : ValidateNonEmptyStringM "schema" schema = .ok ())
    (hparse : parseSchema (schema.getD "") = .ok sch)
    (hsyms : ValidateSymbolArray (some (syms.map some)) syms.length = .ok ())
    (hne : syms ≠ [])
    (hneg : ns < 0) :
    (dbento_live_subscribe_with_replay s hT dataset schema
        (some (syms.map some)) syms.length ns).status = 0
    ∧ (dbento_live_subscribe_with_replay s hT dataset schema
        (some (syms.map some)) syms.length ns).calls
        = [SubCall.withReplay syms sch SType.RawSymbol (toUnixNanosWrapped ns)]
    ∧ (dbento_live_blocking_subscribe_with_replay s hB dataset schema
        (some (syms.map some)) syms.length ns).status = 0
    ∧ (dbento_live_blocking_subscribe_with_replay s hB dataset schema
        (some (syms.map some)) syms.length ns).calls
        = [SubCall.withReplay syms sch SType.RawSymbol (toUnixNanosWrapped ns)]
    ∧ (-(2 ^ 64) ≤ ns → (toUnixNanosWrapped ns : Int) = ns + 2 ^ 64) := by
  have hlen : syms.length ≠ 0 := by
    intro h0
    exact hne (List.length_eq_zero.mp h0)
  have hT0 : (dbento_live_subscribe_with_replay s hT dataset schema
      (some (syms.map some)) syms.length ns).status = 0
      ∧ (dbento_live_subscribe_with_replay s hT dataset schema
        (some (syms.map some)) syms.length ns).calls
        = [SubCall.withReplay syms sch SType.RawSymbol (toUnixNanosWrapped ns)] := by
    simp only [dbento_live_subscribe_with_replay, hvT, hds, hsch, hsyms, hparse,
      symbolVec_map_some]
    simp
  have hB0 : (dbento_live_blocking_subscribe_with_replay s hB dataset schema
      (some (syms.map some)) syms.length ns).status = 0
      ∧ (dbento_live_blocking_subscribe_with_replay s hB dataset schema
        (some (syms.map some)) syms.length ns).calls
        = [SubCall.withReplay syms sch SType.RawSymbol (toUnixNanosWrapped ns)] := by
    have hcond : ¬ ((some (syms.map some)) = none ∨ syms.length = 0) := by
      simp [hlen]
    simp only [dbento_live_blocking_subscribe_with_replay, hvB, hds, hsch]
    rw [if_neg hcond]
    simp only [Option.getD_some, convertSymbolsLoop_map_some, hparse]
    simp
  refine ⟨hT0.1, hT0.2, hB0.1, hB0.2, ?_⟩
  intro hlow
  have hpow : (2 : Int) ^ 64 = 18446744073709551616 := by norm_num
  have hmod : ns % (2 : Int) ^ 64 = ns + 2 ^ 64 := by
    rw [hpow] at hlow ⊢
    omega
  simp only [toUnixNanosWrapped, hmod]
  rw [Int.toNat_of_nonneg (by rw [hpow] at hlow ⊢; omega)]

/-- Witness for C10: at a concrete two-client state, a replay start of `-1`
nanoseconds is accepted by both entry points and issued as `2 ^ 64 - 1`. -/
theorem subscribe_with_replay_negative_start_wraps_witness :
    (dbento_live_subscribe_with_replay sBoth hLive (some "GLBX.MDP3") (some "mbo")
        (some [some "ES.FUT"]) 1 (-1)).calls
      = [SubCall.withReplay ["ES.FUT"] Schema.Mbo SType.RawSymbol 18446744073709551615]
    ∧ (dbento_live_blocking_subscribe_with_replay sBoth hBlk2 (some "GLBX.MDP3")
        (some "mbo") (some [some "ES.FUT"]) 1 (-1)).calls
      = [SubCall.withReplay ["ES.FUT"] Schema.Mbo SType.RawSymbol 18446744073709551615]
    ∧ toUnixNanosWrapped (-1) = 18446744073709551615 := by
  have h := subscribe_with_replay_negative_start_wraps sBoth hLive 1 hBlk2 2
    (some "GLBX.MDP3") (some "mbo") ["ES.FUT"] (-1) Schema.Mbo
    (by decide) (by decide) rfl rfl rfl rfl (by simp) (by decide)
  have hval : toUnixNanosWrapped (-1) = 18446744073709551615 := by decide
  exact ⟨hval ▸ h.2.1, hval ▸ h.2.2.2.1, hval⟩

/-- Lemma: `takeWhile` walks through a prefix on which the predicate holds. -/
theorem takeWhile_append_all (p : Char → Bool) (xs ys : List Char)
    (h : ∀ c ∈ xs, p c = true) :
    (xs ++ ys).takeWhile p = xs ++ ys.takeWhile p := by
  induction xs with
  | nil => rfl
  | cons a l ih =>
    simp only [List.cons_append, List.takeWhile_cons, h a (List.mem_cons_self a l),
      if_true]
    rw [ih (fun c hc => h c (List.mem_cons_of_mem a hc))]

/-- Setting the cell just past a prefix of known length. -/
theorem set_append_length (A r : List Char) (c : Char) :
    (A ++ r).set A.length c = A ++ r.set 0 c := by
  induction A with
  | nil => rfl
  | cons a l ih =>
    show a :: ((l ++ r).set l.length c) = a :: (l ++ r.set 0 c)
    exact congrArg _ ih

/-- Writing a null into the first cell of a non-empty buffer leaves the empty
C string, a null terminator, and the buffer length intact. -/
theorem cstr_set_zero (buf : List Char) (h : buf ≠ []) :
    cStr (buf.set 0 nulChar) = []
    ∧ nulChar ∈ buf.set 0 nulChar
    ∧ (buf.set 0 nulChar).length = buf.length := by
  obtain ⟨b, bt, rfl⟩ := List.exists_cons_of_ne_nil h
  refine ⟨?_, ?_, ?_⟩
  · simp [cStr, List.takeWhile_cons]
  · simp
  · simp

/-- Effect of `strncpy(dest, src, n)` followed by `dest[n] = 0` on a buffer of
length greater than `n`: the buffer keeps its length, is null-terminated, and
its C string is the source truncated to `n` characters. -/
theorem strncpy_set_cstr (buf srcL : List Char) (n : Nat)
    (hn : n < buf.length) (hs : nulChar ∉ srcL) :
    cStr ((strncpyBuf buf srcL n).set n nulChar) = srcL.take n
    ∧ nulChar ∈ (strncpyBuf buf srcL n).set n nulChar
    ∧ ((strncpyBuf buf srcL n).set n nulChar).length = buf.length := by
  have hA : (srcL.take n ++ List.replicate (n - srcL.length) nulChar).length = n := by
    simp only [List.length_append, List.length_take, List.length_replicate]
    omega
  have hdropne : buf.drop n ≠ [] := by
    intro h0
    rw [List.drop_eq_nil_iff] at h0
    omega
  obtain ⟨d, t, ht⟩ := List.exists_cons_of_ne_nil hdropne
  have hset : (strncpyBuf buf srcL n).set n nulChar
      = (srcL.take n ++ List.replicate (n - srcL.length) nulChar) ++ nulChar :: t := by
    rw [strncpyBuf, ht]
    generalize hAg : srcL.take n ++ List.replicate (n - srcL.length) nulChar = A at hA ⊢
    rw [← hA, set_append_length]
    rfl
  have hall : ∀ c ∈ srcL, decide (c ≠ nulChar) = true := by
    intro c hc
    simp only [decide_eq_true_iff]
    intro hcn
    exact hs (hcn ▸ hc)
  have htake : ∀ c ∈ srcL.take n, decide (c ≠ nulChar) = true :=
    fun c hc => hall c (List.take_subset n srcL hc)
  refine ⟨?_, ?_, ?_⟩
  · rw [hset]
    by_cases hcmp : n ≤ srcL.length
    · have hzero : n - srcL.length = 0 := by omega
      rw [hzero]
      simp only [List.replicate, List.append_nil]
      rw [cStr, takeWhile_append_all _ _ _ htake]
      simp [List.takeWhile_cons]
    · have htakeall : srcL.take n = srcL := List.take_of_length_le (by omega)
      obtain ⟨k, hk⟩ : ∃ k, n - srcL.length = k + 1 := ⟨n - srcL.length - 1, by omega⟩
      rw [htakeall, hk, List.replicate_succ]
      rw [cStr, List.append_assoc]
      rw [takeWhile_append_all _ srcL _ hall]
      simp [List.takeWhile_cons]
  · rw [hset]
    exact List.mem_append_right _ (List.mem_cons_self _ _)
  · rw [hset]
    have hlen := congrArg List.length ht
    simp only [List.length_drop, List.length_cons] at hlen
    simp only [List.length_append, List.length_cons, hA]
    omega

/-- C9: `SafeStrCopy` always leaves a written destination null-terminated and
returns a boolean reporting usability: a null destination or size zero writes
nothing and returns `false`; a size between 1 and 15 writes a truncated
null-terminated copy (or the empty string) but returns `false`; a size of at
least 16 copies at most `min(size, 65536) - 1` characters, null-terminates,
treats a null source as the empty string, and returns `true`. -/
theorem safeStrCopy_spec (buf : List Char) (src : Option (List Char))
    (hsrc : ∀ s, src = some s → nulChar ∉ s) :
    SafeStrCopy none src = (false, none)
    ∧ (buf.length = 0 → SafeStrCopy (some buf) src = (false, some buf))
    ∧ (1 ≤ buf.length → buf.length < 16 →
        (SafeStrCopy (some buf) src).1 = false
        ∧ ∃ r, (SafeStrCopy (some buf) src).2 = some r
            ∧ r.length = buf.length ∧ nulChar ∈ r
            ∧ cStr r = (src.getD []).take (buf.length - 1))
    ∧ (16 ≤ buf.length →
        (SafeStrCopy (some buf) src).1 = true
        ∧ ∃ r, (SafeStrCopy (some buf) src).2 = some r
            ∧ r.length = buf.length ∧ nulChar ∈ r
            ∧ cStr r = (src.getD []).take (min buf.length 65536 - 1)) := by
  refine ⟨rfl, ?_, ?_, ?_⟩
  · intro h0
    simp [SafeStrCopy, h0]
  · intro h1 h16
    have hne0 : ¬ buf.length = 0 := by omega
    have hne : buf ≠ [] := by
      intro h0
      rw [h0] at h1
      simp at h1
    have hz := cstr_set_zero buf hne
    rcases src with _ | s
    · have heq : SafeStrCopy (some buf) none = (false, some (buf.set 0 nulChar)) := by
        simp [SafeStrCopy, hne0, MIN_ERROR_BUFFER_SIZE, h16]
      rw [heq]
      exact ⟨rfl, buf.set 0 nulChar, rfl, hz.2.2, hz.2.1, by simp [hz.1]⟩
    · have hsnul : nulChar ∉ s := hsrc s rfl
      by_cases hse : s = []
      · subst hse
        have heq : SafeStrCopy (some buf) (some []) = (false, some (buf.set 0 nulChar)) := by
          simp [SafeStrCopy, hne0, MIN_ERROR_BUFFER_SIZE, h16]
        rw [heq]
        exact ⟨rfl, buf.set 0 nulChar, rfl, hz.2.2, hz.2.1, by simp [hz.1]⟩
      · have hc := strncpy_set_cstr buf s (buf.length - 1) (by omega) hsnul
        have heq : SafeStrCopy (some buf) (some s)
            = (false, some ((strncpyBuf buf s (buf.length - 1)).set (buf.length - 1)
                nulChar)) := by
          simp [SafeStrCopy, hne0, MIN_ERROR_BUFFER_SIZE, h16, hse]
        rw [heq]
        exact ⟨rfl, _, rfl, hc.2.2, hc.2.1, by simp [hc.1]⟩
  · intro h16
    have hne0 : ¬ buf.length = 0 := by omega
    have hne : buf ≠ [] := by
      intro h0
      rw [h0] at h16
      simp at h16
    have hz := cstr_set_zero buf hne
    have hnlt : ¬ buf.length < MIN_ERROR_BUFFER_SIZE := by
      simp only [MIN_ERROR_BUFFER_SIZE]
      omega
    rcases src with _ | s
    · have heq : SafeStrCopy (some buf) none = (true, some (buf.set 0 nulChar)) := by
        simp [SafeStrCopy, hne0, hnlt]
      rw [heq]
      exact ⟨rfl, buf.set 0 nulChar, rfl, hz.2.2, hz.2.1, by simp [hz.1]⟩
    · have hsnul : nulChar ∉ s := hsrc s rfl
      have hnsz : min buf.length 65536 - 1 < buf.length := by omega
      have hc := strncpy_set_cstr buf s (min buf.length 65536 - 1) hnsz hsnul
      have heq : SafeStrCopy (some buf) (some s)
          = (true, some ((strncpyBuf buf s (min buf.length 65536 - 1)).set
              (min buf.length 65536 - 1) nulChar)) := by
        simp [SafeStrCopy, hne0, hnlt, MAX_ERROR_BUFFER_SIZE]
      rw [heq]
      exact ⟨rfl, _, rfl, hc.2.2, hc.2.1, by simp [hc.1]⟩

/-- Witness for C9: on a concrete 20-byte buffer and the source "hi", the copy
succeeds and the buffer holds exactly "hi" as its C string. -/
theorem safeStrCopy_spec_witness :
    (SafeStrCopy (some (List.replicate 20 'a')) (some ['h', 'i'])).1 = true
    ∧ cStr (((SafeStrCopy (some (List.replicate 20 'a')) (some ['h', 'i'])).2).getD [])
        = ['h', 'i'] := by
  have h := (safeStrCopy_spec (List.replicate 20 'a') (some ['h', 'i'])
    (by intro s hs; injection hs with he; subst he; decide)).2.2.2 (by decide)
  exact ⟨h.1, by decide⟩

end DatabentoNative
